import Mathlib

/-!
# Verification of the LLM task router

Shallow embedding of `src/sst_tts_translator/llm/router.py`: the provider and
role enumerations, the generation-client abstraction, role-based agents, and
the `LLMRouter` with its `get_client`, `create_agent_swarm`, `route_task` and
`_process_with_swarm` methods.

A Python async generator is modelled by the pair of the list of text fragments
it yields before finishing and an optional exception raised at the end
(`GenResult` at the client level, `RouteResult` at the router level, whose
error type also covers the configuration error raised by `get_client`).
A remote generation call is modelled as a deterministic function of the prompt
and the stream flag; `temperature` and `max_tokens` are always left at their
defaults on the routing path and are omitted.
-/

namespace Router

/-- Embeds `LLMProvider` (router.py lines 9-12): the two supported backends. -/
inductive LLMProvider where
  | openai
  | anthropic
deriving DecidableEq, Repr

/-- The `str` value of an `LLMProvider` member. -/
def LLMProvider.value : LLMProvider → String
  | .openai => "openai"
  | .anthropic => "anthropic"

/-- Embeds `AgentRole` (router.py lines 15-20): the four swarm roles. -/
inductive AgentRole where
  | architect
  | developer
  | reviewer
  | tester
deriving DecidableEq, Repr

/-- Outcome of iterating a client-level async generator: the fragments it
yielded, and `none` for normal exhaustion or `some msg` for a `RuntimeError`
raised after those fragments. -/
structure GenResult where
  chunks : List String
  err : Option String
deriving DecidableEq, Repr

/-- Embeds the abstract `LLMClient` (router.py lines 23-35): `generate` as a
function of the prompt and the stream flag. -/
structure LLMClient where
  gen : String → Bool → GenResult

/-- Errors that can escape the router's methods: `configError` is the
`ValueError` raised by `get_client` for an unregistered provider, `genError`
is a `RuntimeError` escaping a client's `generate`, and `keyError` models a
failed `swarm[role]` dictionary lookup. -/
inductive RouterError where
  | configError (msg : String)
  | genError (msg : String)
  | keyError (role : AgentRole)
deriving DecidableEq, Repr

/-- Outcome of iterating a router-level async generator. -/
structure RouteResult where
  chunks : List String
  err : Option RouterError
deriving DecidableEq, Repr

/-- Embeds `Agent._default_system_prompt` (router.py lines 135-155). All four
roles are present in the dictionary, so the `"You are a helpful AI assistant."`
fallback of `prompts.get` is unreachable. -/
def defaultSystemPrompt : AgentRole → String
  | .architect =>
      "You are a software architect. Design system architecture, " ++
      "choose appropriate patterns, and plan component structure."
  | .developer =>
      "You are a software developer. Implement clean, maintainable code " ++
      "following best practices and the provided architecture."
  | .reviewer =>
      "You are a code reviewer. Review code for quality, correctness, " ++
      "security issues, and suggest improvements."
  | .tester =>
      "You are a QA engineer. Write comprehensive tests, identify edge cases, " ++
      "and ensure code quality through testing."

/-- Embeds `Agent` (router.py lines 121-133). -/
structure Agent where
  role : AgentRole
  llm_client : LLMClient
  system_prompt : String

/-- Embeds `Agent.__init__`: `self.system_prompt = system_prompt or
self._default_system_prompt()`. Python's `or` falls back when the argument is
`None` or the empty string. -/
def Agent.make (role : AgentRole) (llm_client : LLMClient)
    (system_prompt : Option String) : Agent :=
  { role := role
    llm_client := llm_client
    system_prompt :=
      match system_prompt with
      | some s => if s = "" then defaultSystemPrompt role else s
      | none => defaultSystemPrompt role }

/-- Embeds the context rendering of `Agent.process` (router.py line 168):
each key/value pair on its own line, rendered as the key, a colon and a space,
then the value, joined by newlines in the mapping's iteration order. Context
values are modelled by their rendered string form. -/
def contextStr (context : List (String × String)) : String :=
  String.intercalate "\n" (context.map fun kv => kv.1 ++ ": " ++ kv.2)

/-- Embeds the prompt assembly of `Agent.process` (router.py lines 164-169).
`if context:` is false both for `None` and for an empty dictionary. -/
def Agent.fullPrompt (a : Agent) (task : String)
    (context : Option (List (String × String))) : String :=
  let fp := a.system_prompt ++ "\n\n" ++ task
  match context with
  | none => fp
  | some ctx =>
      if ctx.isEmpty then fp
      else fp ++ "\n\nContext:\n" ++ contextStr ctx

/-- Embeds `Agent.process` (router.py lines 157-175): assemble the prompt and
forward every chunk of `llm_client.generate(full_prompt, stream=stream)`. -/
def Agent.process (a : Agent) (task : String)
    (context : Option (List (String × String))) (stream : Bool) : GenResult :=
  a.llm_client.gen (a.fullPrompt task context) stream

/-- Embeds the `LLMRouter` state (router.py lines 181-196): the configured
default provider, the provider-to-client dictionary populated at construction,
and the `self.agents` dictionary (never read or written on the routing path). -/
structure LLMRouter where
  default_provider : LLMProvider
  clients : LLMProvider → Option LLMClient
  agents : List (AgentRole × Agent)

/-- Embeds `LLMRouter.get_client` (router.py lines 198-203): `provider or
self.default_provider`, then a `ValueError` when that provider is not a key of
`self.clients`. -/
def LLMRouter.get_client (r : LLMRouter) (provider : Option LLMProvider) :
    Except RouterError LLMClient :=
  let p := provider.getD r.default_provider
  match r.clients p with
  | none => .error (.configError ("Provider " ++ p.value ++ " not configured"))
  | some c => .ok c

/-- Embeds `LLMRouter.create_agent_swarm` (router.py lines 205-217): resolve
the client, then build one `Agent(role, client)` per role into a dictionary
keyed by role. -/
def LLMRouter.create_agent_swarm (r : LLMRouter) (roles : List AgentRole)
    (provider : Option LLMProvider) :
    Except RouterError (List (AgentRole × Agent)) :=
  match r.get_client provider with
  | .error e => .error e
  | .ok client => .ok (roles.map fun role => (role, Agent.make role client none))

/-- Dictionary lookup `swarm[role]` on the swarm built by
`create_agent_swarm`. -/
def lookupAgent (swarm : List (AgentRole × Agent)) (role : AgentRole) :
    Option Agent :=
  (swarm.find? fun kv => decide (kv.1 = role)).map fun kv => kv.2

/-- Embeds the role-selection of `_process_with_swarm`
(router.py lines 256-263): exact, case-sensitive comparison of `task_type`. -/
def rolesFor (task_type : String) : List AgentRole :=
  if task_type = "code_generation" then [.architect, .developer]
  else if task_type = "code_review" then [.reviewer]
  else if task_type = "testing" then [.tester]
  else [.developer]

/-- Embeds the sequential loop of `_process_with_swarm`
(router.py lines 267-282): for each role, run `agent.process(current_output,
stream=stream)`, collecting its chunks (and forwarding each one to the caller
when `stream` is true); the joined chunks become the next stage's input. A
`RuntimeError` escaping a stage propagates at once, after the chunks already
yielded when `stream` is true and with nothing yielded when `stream` is false.
After the loop, when `stream` is false, the final `current_output` is yielded
as the single fragment. -/
def runChain (swarm : List (AgentRole × Agent)) (stream : Bool) :
    List AgentRole → String → RouteResult
  | [], current => { chunks := if stream then [] else [current], err := none }
  | role :: rest, current =>
      match lookupAgent swarm role with
      | none => { chunks := [], err := some (.keyError role) }
      | some agent =>
          let res := agent.process current none stream
          match res.err with
          | some e =>
              { chunks := if stream then res.chunks else []
                err := some (.genError e) }
          | none =>
              let next := String.join res.chunks
              let tail := runChain swarm stream rest next
              { chunks := (if stream then res.chunks else []) ++ tail.chunks
                err := tail.err }

/-- Embeds `LLMRouter._process_with_swarm` (router.py lines 248-282): select
the roles from `task_type`, build the swarm with `self.create_agent_swarm(
roles)` — note: no provider argument is passed there — and run the chain. -/
def LLMRouter.process_with_swarm (r : LLMRouter) (prompt task_type : String)
    (stream : Bool) : RouteResult :=
  let roles := rolesFor task_type
  match r.create_agent_swarm roles none with
  | .error e => { chunks := [], err := some e }
  | .ok swarm => runChain swarm stream roles prompt

/-- Embeds `LLMRouter.route_task` (router.py lines 219-246): with `use_swarm`
delegate to `_process_with_swarm(prompt, task_type, stream)` (the `provider`
argument is not forwarded); otherwise resolve the client and forward every
chunk of `client.generate(prompt, stream=stream)`. -/
def LLMRouter.route_task (r : LLMRouter) (prompt : String)
    (task_type : String) (use_swarm : Bool) (provider : Option LLMProvider)
    (stream : Bool) : RouteResult :=
  if use_swarm then r.process_with_swarm prompt task_type stream
  else
    match r.get_client provider with
    | .error e => { chunks := [], err := some e }
    | .ok client =>
        let res := client.gen prompt stream
        { chunks := res.chunks, err := res.err.map .genError }

/-! ## State-passing embedding

The frame claim needs the router's state to be threaded explicitly. Each
method below is the statement-by-statement translation of the corresponding
Python method with `self` passed in and out; none of `get_client`,
`create_agent_swarm`, `route_task` or `_process_with_swarm` contains an
assignment to an attribute of `self`, so each returns the state produced by
its sub-calls unchanged. -/

/-- State-passing `get_client`: reads `self.default_provider` and
`self.clients`, writes nothing. -/
def LLMRouter.get_clientS (r : LLMRouter) (provider : Option LLMProvider) :
    Except RouterError LLMClient × LLMRouter :=
  (r.get_client provider, r)

/-- State-passing `create_agent_swarm`: calls `get_client`, then builds a
local dictionary. -/
def LLMRouter.create_agent_swarmS (r : LLMRouter) (roles : List AgentRole)
    (provider : Option LLMProvider) :
    Except RouterError (List (AgentRole × Agent)) × LLMRouter :=
  let gc := r.get_clientS provider
  (match gc.1 with
   | .error e => .error e
   | .ok client =>
       .ok (roles.map fun role => (role, Agent.make role client none)),
   gc.2)

/-- State-passing `_process_with_swarm`: calls `create_agent_swarm`, then
runs the chain over local variables only. -/
def LLMRouter.process_with_swarmS (r : LLMRouter) (prompt task_type : String)
    (stream : Bool) : RouteResult × LLMRouter :=
  let roles := rolesFor task_type
  let sw := r.create_agent_swarmS roles none
  (match sw.1 with
   | .error e => { chunks := [], err := some e }
   | .ok swarm => runChain swarm stream roles prompt,
   sw.2)

/-- State-passing `route_task`. -/
def LLMRouter.route_taskS (r : LLMRouter) (prompt : String)
    (task_type : String) (use_swarm : Bool) (provider : Option LLMProvider)
    (stream : Bool) : RouteResult × LLMRouter :=
  if use_swarm then r.process_with_swarmS prompt task_type stream
  else
    let gc := r.get_clientS provider
    (match gc.1 with
     | .error e => { chunks := [], err := some e }
     | .ok client =>
         let res := client.gen prompt stream
         { chunks := res.chunks, err := res.err.map .genError },
     gc.2)

/-! ## Concrete fixtures

Fake clients and routers used to instantiate the theorems below on concrete
inputs. -/

/-- A fake client answering every prompt with the single fragment `s`,
streamed or not. -/
def constClient (s : String) : LLMClient :=
  { gen := fun _ _ => { chunks := [s], err := none } }

/-- A fake client echoing the prompt it receives as its single fragment. -/
def echoClient : LLMClient :=
  { gen := fun p _ => { chunks := [p], err := none } }

/-- A fake client whose generation always raises `msg`. -/
def failClient (msg : String) : LLMClient :=
  { gen := fun _ _ => { chunks := [], err := some msg } }

/-- A router with only an openai client (answering "O"), default openai. -/
def routerO : LLMRouter :=
  { default_provider := .openai
    clients := fun p =>
      match p with
      | .openai => some (constClient "O")
      | .anthropic => none
    agents := [] }

/-- A router with an openai client answering "O" and an anthropic client
answering "A", default openai. -/
def routerOA : LLMRouter :=
  { default_provider := .openai
    clients := fun p =>
      match p with
      | .openai => some (constClient "O")
      | .anthropic => some (constClient "A")
    agents := [] }

/-- A router with no registered clients. -/
def routerEmpty : LLMRouter :=
  { default_provider := .openai, clients := fun _ => none, agents := [] }

/-- A router whose only client (openai, the default) always raises "boom". -/
def routerFail : LLMRouter :=
  { default_provider := .openai
    clients := fun p =>
      match p with
      | .openai => some (failClient "boom")
      | .anthropic => none
    agents := [] }

/-! ## General lemmas about the embedding -/

/-- The state-passing embedding computes the same result as the direct one. -/
theorem route_taskS_fst (r : LLMRouter) (prompt task_type : String)
    (use_swarm : Bool) (provider : Option LLMProvider) (stream : Bool) :
    (r.route_taskS prompt task_type use_swarm provider stream).1 =
      r.route_task prompt task_type use_swarm provider stream := by
  cases use_swarm <;>
    simp only [LLMRouter.route_taskS, LLMRouter.route_task,
      LLMRouter.process_with_swarmS, LLMRouter.process_with_swarm,
      LLMRouter.create_agent_swarmS, LLMRouter.create_agent_swarm,
      LLMRouter.get_clientS, if_true, if_false, Bool.false_eq_true]

/-- Joining a one-element fragment list is that fragment. -/
theorem join_singleton (s : String) : String.join [s] = s := rfl

/-- One successful step of the sequential swarm loop: the chunks of the stage
(forwarded only when streaming) followed by the rest of the chain run on the
stage's joined output. -/
theorem runChain_cons_ok (swarm : List (AgentRole × Agent)) (stream : Bool)
    (role : AgentRole) (rest : List AgentRole) (current : String)
    (agent : Agent) (hl : lookupAgent swarm role = some agent)
    (hok : (agent.process current none stream).err = none) :
    runChain swarm stream (role :: rest) current =
      { chunks :=
          (if stream then (agent.process current none stream).chunks else []) ++
            (runChain swarm stream rest
              (String.join (agent.process current none stream).chunks)).chunks
        err :=
          (runChain swarm stream rest
            (String.join (agent.process current none stream).chunks)).err } := by
  simp [runChain, hl, hok]

/-! ## Claims -/

/-- C5: in swarm mode the role sequence is selected from `task_type` by
exact, case-sensitive string comparison: "code_generation" maps to
[architect, developer], "code_review" to [reviewer], "testing" to [tester],
and every other string maps to [developer]; the selected sequence is never
empty. -/
theorem c5_role_selection (t : String) :
    rolesFor "code_generation" = [AgentRole.architect, AgentRole.developer] ∧
    rolesFor "code_review" = [AgentRole.reviewer] ∧
    rolesFor "testing" = [AgentRole.tester] ∧
    (t ≠ "code_generation" → t ≠ "code_review" → t ≠ "testing" →
      rolesFor t = [AgentRole.developer]) ∧
    rolesFor t ≠ [] := by
  refine ⟨rfl, rfl, rfl, ?_, ?_⟩
  · intro h1 h2 h3
    simp [rolesFor, h1, h2, h3]
  · unfold rolesFor
    split
    · simp
    · split
      · simp
      · split <;> simp

/-- C5 witness: a task_type outside the three known ones, and one differing
from a known one only in case, both select the single developer role. -/
theorem c5_role_selection_witness :
    rolesFor "translate" = [AgentRole.developer] ∧
    rolesFor "Code_Generation" = [AgentRole.developer] :=
  ⟨(c5_role_selection "translate").2.2.2.1 (by decide) (by decide) (by decide),
   (c5_role_selection "Code_Generation").2.2.2.1
     (by decide) (by decide) (by decide)⟩

/-- C10: `Agent.process` with an empty context mapping behaves identically to
`Agent.process` with no context at all: the Context block is omitted and the
effective prompt is exactly the system preamble, a blank line, and the task
text. -/
theorem c10_empty_context (a : Agent) (task : String) (stream : Bool) :
    a.process task (some []) stream = a.process task none stream ∧
    a.fullPrompt task (some []) = a.system_prompt ++ "\n\n" ++ task := by
  exact ⟨rfl, rfl⟩

/-- C7: for every task and non-empty context mapping, `Agent.process` sends
its client a prompt equal to the role's system preamble, a blank line, the
task text, a blank line, the literal line "Context:", then one line per
context entry rendered as the key, a colon and a space, and the value,
joined by newlines in the mapping's iteration order. -/
theorem c7_context_prompt (a : Agent) (task : String)
    (ctx : List (String × String)) (stream : Bool) (h : ctx ≠ []) :
    a.process task (some ctx) stream =
      a.llm_client.gen
        (a.system_prompt ++ "\n\n" ++ task ++ "\n\nContext:\n" ++
          String.intercalate "\n" (ctx.map fun kv => kv.1 ++ ": " ++ kv.2))
        stream := by
  have hne : ctx.isEmpty = false := by
    cases ctx
    · exact absurd rfl h
    · rfl
  simp [Agent.process, Agent.fullPrompt, contextStr, hne]

/-- C7 witness: a two-entry context produces exactly the documented prompt,
observed through an echoing client. -/
theorem c7_context_prompt_witness :
    (Agent.make .developer echoClient (some "SYS")).process "task"
        (some [("k", "v"), ("x", "y")]) false =
      { chunks := ["SYS\n\ntask\n\nContext:\nk: v\nx: y"], err := none } := by
  rw [c7_context_prompt (Agent.make .developer echoClient (some "SYS")) "task"
    [("k", "v"), ("x", "y")] false (by decide)]
  rfl

/-- C9: `route_task` leaves the router's state unchanged — the
backend-to-client mapping and the default backend identity are identical
before and after the call, for every combination of swarm, stream and
provider arguments. -/
theorem c9_route_task_frame (r : LLMRouter) (prompt task_type : String)
    (use_swarm : Bool) (provider : Option LLMProvider) (stream : Bool) :
    (r.route_taskS prompt task_type use_swarm provider stream).2 = r := by
  cases use_swarm <;> rfl

/-- C8: with `use_swarm = false` and `stream = false`, `route_task` yields
exactly one fragment, equal to the resolved client's non-streamed output,
passed through unchanged. -/
theorem c8_direct_nonstream (r : LLMRouter) (prompt task_type : String)
    (provider : Option LLMProvider) (client : LLMClient) (s : String)
    (hc : r.get_client provider = .ok client)
    (hg : client.gen prompt false = { chunks := [s], err := none }) :
    r.route_task prompt task_type false provider false =
      { chunks := [s], err := none } := by
  simp [LLMRouter.route_task, hc, hg]

/-- C8 witness: the direct non-streamed path on a concrete router returns the
client's single fragment. -/
theorem c8_direct_nonstream_witness :
    routerO.route_task "hello" "code_generation" false none false =
      { chunks := ["O"], err := none } :=
  c8_direct_nonstream routerO "hello" "code_generation" none
    (constClient "O") "O" rfl rfl

/-- C4 counterexample: `routerO` has no anthropic client, yet a swarm-mode
call explicitly requesting anthropic does not fail with a configuration
error — it silently falls back to the default openai client and succeeds. -/
theorem c4_counterexample :
    routerO.clients LLMProvider.anthropic = none ∧
    routerO.route_task "x" "testing" true (some LLMProvider.anthropic) false =
      { chunks := ["O"], err := none } :=
  ⟨rfl, rfl⟩

/-- C4 amended: an unregistered backend fails with a configuration error and
never falls back when it is actually resolved: a non-swarm call explicitly
requesting it, or any call resolving to an unregistered default. In swarm
mode the explicit backend argument is ignored, so an unregistered explicit
backend there triggers the error only through the default's resolution. -/
theorem c4_amended_unregistered (r : LLMRouter) (prompt task_type : String)
    (p : LLMProvider) (stream use_swarm : Bool) :
    (r.clients p = none →
      r.route_task prompt task_type false (some p) stream =
        { chunks := []
          err := some (.configError
            ("Provider " ++ p.value ++ " not configured")) }) ∧
    (r.clients r.default_provider = none →
      r.route_task prompt task_type use_swarm none stream =
        { chunks := []
          err := some (.configError
            ("Provider " ++ r.default_provider.value ++ " not configured")) }) ∧
    (r.clients r.default_provider = none →
      r.route_task prompt task_type true (some p) stream =
        { chunks := []
          err := some (.configError
            ("Provider " ++ r.default_provider.value ++ " not configured")) }) := by
  refine ⟨fun h => ?_, fun h => ?_, fun h => ?_⟩
  · simp [LLMRouter.route_task, LLMRouter.get_client, h]
  · cases use_swarm <;>
      simp [LLMRouter.route_task, LLMRouter.process_with_swarm,
        LLMRouter.create_agent_swarm, LLMRouter.get_client, h]
  · simp [LLMRouter.route_task, LLMRouter.process_with_swarm,
      LLMRouter.create_agent_swarm, LLMRouter.get_client, h]

/-- C4 witness: on a router with no clients, both the explicit non-swarm
request and the swarm-mode request fail with the configuration error. -/
theorem c4_amended_unregistered_witness :
    routerEmpty.route_task "x" "t" false (some LLMProvider.anthropic) false =
      { chunks := []
        err := some (.configError "Provider anthropic not configured") } ∧
    routerEmpty.route_task "x" "t" true (some LLMProvider.anthropic) false =
      { chunks := []
        err := some (.configError "Provider openai not configured") } :=
  ⟨(c4_amended_unregistered routerEmpty "x" "t" .anthropic false false).1 rfl,
   (c4_amended_unregistered routerEmpty "x" "t" .anthropic false false).2.2 rfl⟩

/-- C3 counterexample: `routerOA` registers distinct clients for both
backends; the swarm call explicitly requesting anthropic runs its agent on
the default openai client (output "O"), not on the anthropic client, whose
chain would produce "A". -/
theorem c3_counterexample :
    routerOA.route_task "x" "testing" true (some LLMProvider.anthropic) false =
      { chunks := ["O"], err := none } ∧
    runChain [(AgentRole.tester, Agent.make .tester (constClient "A") none)]
        false [AgentRole.tester] "x" =
      { chunks := ["A"], err := none } ∧
    ({ chunks := ["O"], err := none } : RouteResult) ≠
      { chunks := ["A"], err := none } :=
  ⟨rfl, rfl, by decide⟩

/-- C3 amended: in swarm mode the explicit backend argument is ignored —
every Agent in the chain is bound to the client registered for the router's
configured default backend, and the call behaves exactly as if no explicit
backend had been given. -/
theorem c3_amended_swarm_uses_default (r : LLMRouter)
    (prompt task_type : String) (p : Option LLMProvider) (stream : Bool)
    (client : LLMClient) (hc : r.clients r.default_provider = some client) :
    r.route_task prompt task_type true p stream =
      runChain
        ((rolesFor task_type).map fun role => (role, Agent.make role client none))
        stream (rolesFor task_type) prompt ∧
    r.route_task prompt task_type true p stream =
      r.route_task prompt task_type true none stream := by
  constructor
  · simp [LLMRouter.route_task, LLMRouter.process_with_swarm,
      LLMRouter.create_agent_swarm, LLMRouter.get_client, hc]
  · rfl

/-- C3 witness: on `routerOA`, the swarm call requesting anthropic runs the
chain of agents bound to the default openai client. -/
theorem c3_amended_swarm_uses_default_witness :
    routerOA.route_task "x" "testing" true (some LLMProvider.anthropic) false =
      runChain
        [(AgentRole.tester, Agent.make .tester (constClient "O") none)]
        false [AgentRole.tester] "x" :=
  (c3_amended_swarm_uses_default routerOA "x" "testing"
    (some .anthropic) false (constClient "O") rfl).1

/-- C6: if a stage of the swarm chain raises a generation error, the whole
chain aborts at that stage: the remaining roles never run (the result is the
same for every continuation `rest`), no partial chain result is yielded in
place of output (no fragments at all when `stream` is false), and the error
message propagates unmodified. -/
theorem c6_stage_error_aborts (swarm : List (AgentRole × Agent))
    (role : AgentRole) (rest : List AgentRole) (current : String)
    (stream : Bool) (agent : Agent) (ch : List String) (e : String)
    (hl : lookupAgent swarm role = some agent)
    (hp : agent.process current none stream = { chunks := ch, err := some e }) :
    runChain swarm stream (role :: rest) current =
      { chunks := if stream then ch else []
        err := some (.genError e) } := by
  simp [runChain, hl, hp]

/-- C6 witness: a failing first stage aborts a two-role chain with the
original error message and no fragments in non-streamed mode. -/
theorem c6_stage_error_aborts_witness :
    runChain
        [(AgentRole.developer, Agent.make .developer (failClient "boom") none)]
        false [AgentRole.developer, AgentRole.reviewer] "x" =
      { chunks := [], err := some (.genError "boom") } :=
  c6_stage_error_aborts
    [(AgentRole.developer, Agent.make .developer (failClient "boom") none)]
    AgentRole.developer [AgentRole.reviewer] "x" false
    (Agent.make .developer (failClient "boom") none) [] "boom" rfl rfl

/-- C1: with `use_swarm = true`, `stream = false` and `task_type =
"code_generation"`, the router's output is exactly one fragment: the fully
concatenated output of the developer agent applied to the fully concatenated
output of the architect agent applied to the prompt. Both stages run, left to
right, and stage 2's entire input is stage 1's joined output. -/
theorem c1_code_generation_chain (r : LLMRouter) (prompt : String)
    (p : Option LLMProvider) (client : LLMClient)
    (hc : r.clients r.default_provider = some client)
    (e1 : ((Agent.make .architect client none).process prompt none false).err
            = none)
    (e2 : ((Agent.make .developer client none).process
            (String.join
              ((Agent.make .architect client none).process prompt none
                false).chunks) none false).err = none) :
    r.route_task prompt "code_generation" true p false =
      { chunks :=
          [String.join
            ((Agent.make .developer client none).process
              (String.join
                ((Agent.make .architect client none).process prompt none
                  false).chunks) none false).chunks]
        err := none } := by
  have hs : r.create_agent_swarm [AgentRole.architect, AgentRole.developer]
      none =
      .ok [(AgentRole.architect, Agent.make .architect client none),
           (AgentRole.developer, Agent.make .developer client none)] := by
    simp [LLMRouter.create_agent_swarm, LLMRouter.get_client, Option.getD, hc]
  have hr : r.route_task prompt "code_generation" true p false =
      runChain [(AgentRole.architect, Agent.make .architect client none),
                (AgentRole.developer, Agent.make .developer client none)]
        false [AgentRole.architect, AgentRole.developer] prompt := by
    simp [LLMRouter.route_task, LLMRouter.process_with_swarm, rolesFor, hs]
  rw [hr,
    runChain_cons_ok
      [(AgentRole.architect, Agent.make .architect client none),
       (AgentRole.developer, Agent.make .developer client none)]
      false AgentRole.architect [AgentRole.developer] prompt
      (Agent.make .architect client none) rfl e1,
    runChain_cons_ok
      [(AgentRole.architect, Agent.make .architect client none),
       (AgentRole.developer, Agent.make .developer client none)]
      false AgentRole.developer [] _
      (Agent.make .developer client none) rfl e2]
  simp [runChain]

/-- C1 witness: on a concrete router whose client answers "O", the
code_generation swarm returns the single fragment "O". -/
theorem c1_code_generation_chain_witness :
    routerO.route_task "make an app" "code_generation" true none false =
      { chunks := ["O"], err := none } :=
  (c1_code_generation_chain routerO "make an app" none (constClient "O")
    rfl rfl rfl).trans (by decide)

/-- C2 counterexample: with `routerO` (every generation returns "O"), the
streamed code_generation swarm yields both stages' fragments, concatenating
to "OO", while the non-streamed call yields the single fragment "O" — so the
streamed concatenation differs from the non-streamed result. -/
theorem c2_counterexample :
    routerO.route_task "x" "code_generation" true none true =
      { chunks := ["O", "O"], err := none } ∧
    routerO.route_task "x" "code_generation" true none false =
      { chunks := ["O"], err := none } ∧
    String.join ["O", "O"] ≠ String.join ["O"] :=
  ⟨rfl, rfl, by decide⟩

/-- C2 amended: in swarm streaming mode the concatenation of the yielded
fragments equals the non-streamed result whenever the resolved role sequence
has exactly one role (every task_type except "code_generation") and the
bound client's streamed output concatenates to its non-streamed output; for
the two-stage "code_generation" chain the streamed concatenation also
contains stage 1's output, so it differs from the non-streamed result
whenever stage 1's output is non-empty. -/
theorem c2_amended_stream_refinement (r : LLMRouter) (prompt t : String)
    (p : Option LLMProvider) (role : AgentRole) (client : LLMClient)
    (hc : r.clients r.default_provider = some client)
    (hsc : ∀ q, String.join (client.gen q true).chunks =
        String.join (client.gen q false).chunks ∧
      ((client.gen q true).err = none ↔ (client.gen q false).err = none))
    (h1 : rolesFor t = [role])
    (h2 : (r.route_task prompt t true p false).err = none) :
    (r.route_task prompt t true p true).err = none ∧
    String.join (r.route_task prompt t true p true).chunks =
      String.join (r.route_task prompt t true p false).chunks := by
  have hs : r.create_agent_swarm [role] none =
      .ok [(role, Agent.make role client none)] := by
    simp [LLMRouter.create_agent_swarm, LLMRouter.get_client, Option.getD, hc]
  have hl : lookupAgent [(role, Agent.make role client none)] role =
      some (Agent.make role client none) := by
    simp [lookupAgent, List.find?]
  have hrf : r.route_task prompt t true p false =
      runChain [(role, Agent.make role client none)] false [role] prompt := by
    simp [LLMRouter.route_task, LLMRouter.process_with_swarm, h1, hs]
  have hrt : r.route_task prompt t true p true =
      runChain [(role, Agent.make role client none)] true [role] prompt := by
    simp [LLMRouter.route_task, LLMRouter.process_with_swarm, h1, hs]
  rw [hrf] at h2
  cases hef : ((Agent.make role client none).process prompt none false).err with
  | some e =>
      rw [runChain, hl] at h2
      simp [hef] at h2
  | none =>
      have het : ((Agent.make role client none).process prompt none true).err
          = none := (hsc ((Agent.make role client none).fullPrompt prompt none)).2.mpr hef
      constructor
      · rw [hrt, runChain_cons_ok _ true role [] prompt
          (Agent.make role client none) hl het]
        simp [runChain]
      · rw [hrt, hrf,
          runChain_cons_ok _ true role [] prompt
            (Agent.make role client none) hl het,
          runChain_cons_ok _ false role [] prompt
            (Agent.make role client none) hl hef]
        simp [runChain, join_singleton]
        exact (hsc ((Agent.make role client none).fullPrompt prompt none)).1

/-- C2 witness: a single-role swarm call on a concrete router streams
fragments concatenating to the non-streamed result. -/
theorem c2_amended_stream_refinement_witness :
    (routerO.route_task "x" "testing" true none true).err = none ∧
    String.join (routerO.route_task "x" "testing" true none true).chunks =
      String.join (routerO.route_task "x" "testing" true none false).chunks :=
  c2_amended_stream_refinement routerO "x" "testing" none AgentRole.tester
    (constClient "O") rfl (fun _ => ⟨rfl, Iff.rfl⟩) rfl rfl

end Router
